import Mathlib

/-!
Shallow embedding of the SPA_habits request-handling surface, taken from
src/habits/views.py and src/users/urls.py: the Habit data model, the five
habit views' query scoping, serializer selection, filtering configuration
and permission configuration, and the user-resource URL routing. A
database is a list of habit rows; a queryset is the filtered list; a
single-object endpoint looks its target up by primary key inside its own
queryset, so a row outside the scope surfaces as a 404, never a 403.
-/

namespace SpaHabits

/-- A row of the Habit table: identifier (primary key), owning user
(foreign key `user`), the `is_published` visibility flag, and the
pleasant-variant flag. Further domain fields do not appear in the
views and are omitted. -/
structure Habit where
  id : Nat
  user : Nat
  is_published : Bool
  is_pleasant_habit : Bool
  deriving DecidableEq, Repr

/-- Primary-key invariant of the habit table: the id identifies the row. -/
def uniqueIds (db : List Habit) : Prop :=
  ∀ x ∈ db, ∀ y ∈ db, x.id = y.id → x = y

instance (db : List Habit) : Decidable (uniqueIds db) := by
  unfold uniqueIds
  infer_instance

/-- A JSON-like value carried in a request body. -/
inductive JsonValue where
  | null
  | bool (b : Bool)
  | str (s : String)
  | num (n : Int)
  deriving DecidableEq, Repr

/-- Python truthiness of a request value, as tested by
`if self.request.data.get(...)`: None and False are falsy, a string is
truthy exactly when non-empty, a number exactly when non-zero. -/
def JsonValue.truthy : JsonValue → Bool
  | .null => false
  | .bool b => b
  | .str s => !s.isEmpty
  | .num n => n != 0

/-- Truthiness of the result of `dict.get`, which yields None for a
missing key; None is falsy. -/
def optTruthy : Option JsonValue → Bool
  | none => false
  | some v => v.truthy

/-- A request body as the habit views read it. The field
`is_pleasant_habit` holds `request.data.get('is_pleasant_habit')`,
with `none` for an absent key; `user` is an owner value the client may
try to submit in the body; `is_published` stands for the remaining
validated content that create copies into the stored row. -/
structure RequestData where
  is_pleasant_habit : Option JsonValue
  user : Option Nat
  is_published : Bool
  deriving DecidableEq, Repr

/-- The serializer classes imported by habits/views.py. -/
inductive SerializerClass where
  | HabitUsefulCreateUpdateSerializer
  | HabitPleasantCreateUpdateSerializer
  | HabitListRetrieveSerializer
  deriving DecidableEq, Repr

/-- Outcome of a single-object habit request. `permissionDenied` is in
the type precisely so we can state that the habit views never produce
it: ownership is folded into the queryset, so a row outside the scope
surfaces as `notFound`. -/
inductive HabitResponse where
  | ok (h : Habit)
  | noContent
  | notFound
  | permissionDenied
  deriving DecidableEq, Repr

/-- The filter backend classes named in habits/views.py. -/
inductive FilterBackend where
  | djangoFilterBackend
  | searchFilter
  | orderingFilter
  deriving DecidableEq, Repr

/-- The declarative filtering configuration of a generic view:
`filter_backends`, `filterset_fields`, `search_fields`,
`ordering_fields`. -/
structure FilterConfig where
  filter_backends : List FilterBackend
  filterset_fields : Option String
  search_fields : Option String
  ordering_fields : List String
  deriving DecidableEq, Repr

/-- The framework default for a view that declares no filtering
attributes: no backends, no field lists. -/
def defaultFilterConfig : FilterConfig :=
  { filter_backends := []
    filterset_fields := none
    search_fields := none
    ordering_fields := [] }

/-- A view's configuration supports arbitrary-field equality filtering,
arbitrary-field text search, and ordering by identifier exactly when all
three backends are declared with `filterset_fields` and `search_fields`
set to all fields and `ordering_fields` to the identifier. -/
def supportsFilterSearchOrder (c : FilterConfig) : Bool :=
  c.filter_backends.contains FilterBackend.djangoFilterBackend &&
  c.filter_backends.contains FilterBackend.searchFilter &&
  c.filter_backends.contains FilterBackend.orderingFilter &&
  c.filterset_fields == some ("__all__") &&
  c.search_fields == some ("__all__") &&
  c.ordering_fields == [("id" : String)]

namespace HabitCreateAPIView

/-- get_serializer_class of HabitCreateAPIView: the useful serializer
when `request.data.get('is_pleasant_habit')` is truthy, else the
pleasant serializer. -/
def get_serializer_class (data : RequestData) : SerializerClass :=
  if optTruthy data.is_pleasant_habit then
    SerializerClass.HabitUsefulCreateUpdateSerializer
  else
    SerializerClass.HabitPleasantCreateUpdateSerializer

/-- perform_create of HabitCreateAPIView: `serializer.save(user=
self.request.user)` stores the validated body with the owner forced to
the requester, ignoring any owner value in the body. -/
def perform_create (requester : Nat) (body : RequestData) (newId : Nat) : Habit :=
  { id := newId
    user := requester
    is_published := body.is_published
    is_pleasant_habit := optTruthy body.is_pleasant_habit }

end HabitCreateAPIView

namespace HabitListAPIView

/-- get_queryset of HabitListAPIView: habits of the current user. -/
def get_queryset (db : List Habit) (requester : Nat) : List Habit :=
  db.filter (fun h => h.user == requester)

/-- Filtering attributes declared on HabitListAPIView. -/
def filterConfig : FilterConfig :=
  { filter_backends :=
      [FilterBackend.djangoFilterBackend, FilterBackend.searchFilter,
       FilterBackend.orderingFilter]
    filterset_fields := some ("__all__")
    search_fields := some ("__all__")
    ordering_fields := [("id" : String)] }

end HabitListAPIView

namespace HabitPublicListAPIView

/-- queryset of HabitPublicListAPIView: published habits. -/
def queryset (db : List Habit) : List Habit :=
  db.filter (fun h => h.is_published)

/-- Filtering attributes declared on HabitPublicListAPIView. -/
def filterConfig : FilterConfig :=
  { filter_backends :=
      [FilterBackend.djangoFilterBackend, FilterBackend.searchFilter,
       FilterBackend.orderingFilter]
    filterset_fields := some ("__all__")
    search_fields := some ("__all__")
    ordering_fields := [("id" : String)] }

end HabitPublicListAPIView

namespace HabitRetrieveAPIView

/-- get_queryset of HabitRetrieveAPIView: published habits or habits of
the current user (`Q(is_published=True) | Q(user=self.request.user)`). -/
def get_queryset (db : List Habit) (requester : Nat) : List Habit :=
  db.filter (fun h => h.is_published || h.user == requester)

/-- The retrieve endpoint: look the target up by primary key inside
get_queryset; a miss is a 404. -/
def handle (db : List Habit) (requester pk : Nat) : HabitResponse :=
  match (get_queryset db requester).find? (fun h => h.id == pk) with
  | some h => HabitResponse.ok h
  | none => HabitResponse.notFound

/-- HabitRetrieveAPIView declares no filtering attributes. -/
def filterConfig : FilterConfig := defaultFilterConfig

end HabitRetrieveAPIView

namespace HabitUpdateAPIView

/-- get_queryset of HabitUpdateAPIView: habits of the current user. -/
def get_queryset (db : List Habit) (requester : Nat) : List Habit :=
  db.filter (fun h => h.user == requester)

/-- get_serializer_class of HabitUpdateAPIView: same selection as on
create, reading only the current request body. -/
def get_serializer_class (data : RequestData) : SerializerClass :=
  if optTruthy data.is_pleasant_habit then
    SerializerClass.HabitUsefulCreateUpdateSerializer
  else
    SerializerClass.HabitPleasantCreateUpdateSerializer

/-- The update endpoint: look the target up by primary key inside
get_queryset; a miss is a 404. `tr` stands for the serializer's field
mutation, whose concrete fields are outside the sources embedded here;
no claim depends on it. -/
def handle (db : List Habit) (requester pk : Nat) (tr : Habit → Habit) :
    HabitResponse :=
  match (get_queryset db requester).find? (fun h => h.id == pk) with
  | some h => HabitResponse.ok (tr h)
  | none => HabitResponse.notFound

/-- HabitUpdateAPIView declares no filtering attributes. -/
def filterConfig : FilterConfig := defaultFilterConfig

end HabitUpdateAPIView

namespace HabitDestroyAPIView

/-- get_queryset of HabitDestroyAPIView: habits of the current user. -/
def get_queryset (db : List Habit) (requester : Nat) : List Habit :=
  db.filter (fun h => h.user == requester)

/-- The delete endpoint: look the target up by primary key inside
get_queryset; on a hit delete the row and answer 204, on a miss answer
404 leaving the table unchanged. -/
def handle (db : List Habit) (requester pk : Nat) :
    HabitResponse × List Habit :=
  match (get_queryset db requester).find? (fun h => h.id == pk) with
  | some h => (HabitResponse.noContent, db.filter (fun x => x.id != h.id))
  | none => (HabitResponse.notFound, db)

/-- HabitDestroyAPIView declares no filtering attributes. -/
def filterConfig : FilterConfig := defaultFilterConfig

end HabitDestroyAPIView

/-- The endpoints of the system: the five user views and two token views
routed in users/urls.py, and the six habit views of habits/views.py. -/
inductive Endpoint where
  | usersCreate
  | usersList
  | usersRetrieve
  | usersUpdate
  | usersDelete
  | tokenObtain
  | tokenRefresh
  | habitsCreate
  | habitsListMine
  | habitsListPublic
  | habitsRetrieve
  | habitsUpdate
  | habitsDestroy
  deriving DecidableEq, Repr

/-- Whether an endpoint requires an authenticated requester. The six
habit views all declare `permission_classes = [IsAuthenticated]` in
habits/views.py. Modelled from the spec: users/views.py is not among the
sources, so the user views' requirement is taken from the spec, which
says every endpoint except user-creation and token-issuance requires a
valid bearer token. -/
def requiresAuth : Endpoint → Bool
  | Endpoint.usersCreate => false
  | Endpoint.tokenObtain => false
  | Endpoint.tokenRefresh => false
  | Endpoint.usersList => true
  | Endpoint.usersRetrieve => true
  | Endpoint.usersUpdate => true
  | Endpoint.usersDelete => true
  | Endpoint.habitsCreate => true
  | Endpoint.habitsListMine => true
  | Endpoint.habitsListPublic => true
  | Endpoint.habitsRetrieve => true
  | Endpoint.habitsUpdate => true
  | Endpoint.habitsDestroy => true

/-- The permission gate the framework runs before any handler logic:
`some 401` rejects the request when the endpoint requires authentication
and the request carries no valid bearer token; `none` lets the request
proceed to the handler. -/
def permissionGate (e : Endpoint) (hasValidToken : Bool) : Option Nat :=
  if requiresAuth e && !hasValidToken then some 401 else none

/-- The view classes routed in users/urls.py. -/
inductive UserHandler where
  | UserCreateAPIView
  | UserListAPIView
  | UserRetrieveAPIView
  | UserUpdateAPIView
  | UserDestroyAPIView
  | TokenObtainPairView
  | TokenRefreshView
  deriving DecidableEq, Repr

/-- urlpatterns of users/urls.py: each entry is the path pattern, the
view class, and the route name, in source order. -/
def urlpatterns : List (String × UserHandler × String) :=
  [(("create/"), UserHandler.UserCreateAPIView, ("users_create")),
   ((""), UserHandler.UserListAPIView, ("users_list")),
   (("<int:pk>/"), UserHandler.UserRetrieveAPIView, ("users_get")),
   (("update/<int:pk>/"), UserHandler.UserUpdateAPIView, ("users_update")),
   (("delete/<int:pk>/"), UserHandler.UserDestroyAPIView, ("users_delete")),
   (("token/"), UserHandler.TokenObtainPairView, ("token_obtain_pair")),
   (("token/refresh/"), UserHandler.TokenRefreshView, ("token_refresh"))]

/-- The view class a user-resource path resolves to: the first entry of
urlpatterns whose pattern is the path. -/
def lookupPath (p : String) : Option UserHandler :=
  (urlpatterns.find? (fun e => e.1 == p)).map (fun e => e.2.1)

/-- A concrete unpublished habit row owned by user 10, used to evaluate
the theorems on explicit inputs. -/
def habitA : Habit :=
  { id := 1, user := 10, is_published := false, is_pleasant_habit := false }

/-- A concrete published habit row owned by user 10, used to evaluate
the theorems on explicit inputs. -/
def habitB : Habit :=
  { id := 2, user := 10, is_published := true, is_pleasant_habit := true }

/-- A concrete request body whose `is_pleasant_habit` key is absent. -/
def bodyAbsent : RequestData :=
  { is_pleasant_habit := none, user := none, is_published := false }

/-- A concrete request body carrying `is_pleasant_habit = true`. -/
def bodyBoolTrue : RequestData :=
  { is_pleasant_habit := some (JsonValue.bool true), user := none,
    is_published := false }

/-- A concrete request body carrying `is_pleasant_habit = false`. -/
def bodyBoolFalse : RequestData :=
  { is_pleasant_habit := some (JsonValue.bool false), user := none,
    is_published := false }

/-- A concrete request body carrying the non-empty string value
`is_pleasant_habit = "false"`, which is truthy in Python. -/
def bodyStrFalse : RequestData :=
  { is_pleasant_habit := some (JsonValue.str ("false")), user := none,
    is_published := false }

/-- Helper for the mine-scoped endpoints: when the ids of the table are
a primary key and the target row belongs to someone else, the lookup by
the target's id inside the requester's own rows yields nothing. -/
lemma find_mine_eq_none (db : List Habit) (h : Habit) (r : Nat)
    (hmem : h ∈ db) (huniq : uniqueIds db) (hown : h.user ≠ r) :
    (db.filter (fun x => x.user == r)).find? (fun x => x.id == h.id) = none := by
  rw [List.find?_eq_none]
  intro x hx
  rcases List.mem_filter.mp hx with ⟨hxdb, hxr⟩
  intro hid
  have hxh : x = h := huniq x hxdb h hmem (by simpa using hid)
  rw [hxh] at hxr
  exact hown (by simpa using hxr)

/-- C1: for a habit H whose owner is not the requester R, retrieval is
NotFound whenever H is unpublished, and update and delete are NotFound
unconditionally (never PermissionDenied): the update and delete
querysets contain only the requester's own rows. -/
theorem claim_C1 (db : List Habit) (h : Habit) (r : Nat) (tr : Habit → Habit)
    (hmem : h ∈ db) (huniq : uniqueIds db) (hown : h.user ≠ r) :
    (h.is_published = false →
      HabitRetrieveAPIView.handle db r h.id = HabitResponse.notFound) ∧
    HabitUpdateAPIView.handle db r h.id tr = HabitResponse.notFound ∧
    (HabitDestroyAPIView.handle db r h.id).1 = HabitResponse.notFound := by
  refine ⟨?_, ?_, ?_⟩
  · intro hpub
    have hnone : (HabitRetrieveAPIView.get_queryset db r).find?
        (fun x => x.id == h.id) = none := by
      unfold HabitRetrieveAPIView.get_queryset
      rw [List.find?_eq_none]
      intro x hx
      rcases List.mem_filter.mp hx with ⟨hxdb, hxp⟩
      intro hid
      have hxh : x = h := huniq x hxdb h hmem (by simpa using hid)
      rw [hxh] at hxp
      simp only [Bool.or_eq_true, beq_iff_eq] at hxp
      rcases hxp with hp | hu
      · rw [hpub] at hp
        exact Bool.noConfusion hp
      · exact hown hu
    unfold HabitRetrieveAPIView.handle
    rw [hnone]
  · unfold HabitUpdateAPIView.handle HabitUpdateAPIView.get_queryset
    rw [find_mine_eq_none db h r hmem huniq hown]
  · unfold HabitDestroyAPIView.handle HabitDestroyAPIView.get_queryset
    rw [find_mine_eq_none db h r hmem huniq hown]

/-- Witness for C1: with the table holding only the unpublished habit
of user 10, requester 20 gets NotFound from retrieve, update and
delete. -/
theorem claim_C1_witness :
    habitA ∈ [habitA] ∧ uniqueIds [habitA] ∧ habitA.user ≠ 20 ∧
    ((habitA.is_published = false →
      HabitRetrieveAPIView.handle [habitA] 20 habitA.id = HabitResponse.notFound) ∧
    HabitUpdateAPIView.handle [habitA] 20 habitA.id id = HabitResponse.notFound ∧
    (HabitDestroyAPIView.handle [habitA] 20 habitA.id).1 = HabitResponse.notFound) :=
  ⟨by decide, by decide, by decide,
    claim_C1 [habitA] habitA 20 id (by decide) (by decide) (by decide)⟩

/-- C2: with ids a primary key, the single-item retrieve returns habit
H to requester R exactly when H is published or owned by R; otherwise
it is NotFound. -/
theorem claim_C2 (db : List Habit) (h : Habit) (r : Nat)
    (hmem : h ∈ db) (huniq : uniqueIds db) :
    HabitRetrieveAPIView.handle db r h.id = HabitResponse.ok h ↔
      (h.is_published = true ∨ h.user = r) := by
  constructor
  · intro hok
    unfold HabitRetrieveAPIView.handle at hok
    cases hfind : (HabitRetrieveAPIView.get_queryset db r).find?
        (fun x => x.id == h.id) with
    | none =>
      rw [hfind] at hok
      simp at hok
    | some x =>
      rw [hfind] at hok
      simp only [HabitResponse.ok.injEq] at hok
      subst hok
      have hxmem := List.mem_of_find?_eq_some hfind
      unfold HabitRetrieveAPIView.get_queryset at hxmem
      rcases List.mem_filter.mp hxmem with ⟨-, hpred⟩
      simpa using hpred
  · intro hor
    unfold HabitRetrieveAPIView.handle
    have hmemf : h ∈ HabitRetrieveAPIView.get_queryset db r := by
      unfold HabitRetrieveAPIView.get_queryset
      refine List.mem_filter.mpr ⟨hmem, ?_⟩
      simpa using hor
    have hsome : ((HabitRetrieveAPIView.get_queryset db r).find?
        (fun x => x.id == h.id)).isSome := by
      rw [List.find?_isSome]
      exact ⟨h, hmemf, by simp⟩
    obtain ⟨x, hx⟩ := Option.isSome_iff_exists.mp hsome
    have hxpred := List.find?_some hx
    have hxdb : x ∈ db := by
      have hxmem := List.mem_of_find?_eq_some hx
      unfold HabitRetrieveAPIView.get_queryset at hxmem
      exact (List.mem_filter.mp hxmem).1
    have hxh : x = h := huniq x hxdb h hmem (by simpa using hxpred)
    rw [hx, hxh]

/-- Witness for C2: the published habit of user 10 is retrievable by
requester 20. -/
theorem claim_C2_witness :
    habitB ∈ [habitB] ∧ uniqueIds [habitB] ∧
    (HabitRetrieveAPIView.handle [habitB] 20 habitB.id = HabitResponse.ok habitB ↔
      (habitB.is_published = true ∨ habitB.user = 20)) :=
  ⟨by decide, by decide, claim_C2 [habitB] habitB 20 (by decide) (by decide)⟩

/-- C3: the stored row of a create always has the requester as owner,
and the owner value of the request body is ignored entirely. -/
theorem claim_C3 (requester : Nat) (body : RequestData) (newId u : Nat) :
    (HabitCreateAPIView.perform_create requester body newId).user = requester ∧
    HabitCreateAPIView.perform_create requester { body with user := some u } newId =
      HabitCreateAPIView.perform_create requester { body with user := none } newId :=
  ⟨rfl, rfl⟩

/-- C4: membership in the list-mine queryset is exactly ownership by
the requester, and membership in the public-list queryset is exactly
the published flag. -/
theorem claim_C4 (db : List Habit) (u : Nat) (h : Habit) :
    (h ∈ HabitListAPIView.get_queryset db u ↔ h ∈ db ∧ h.user = u) ∧
    (h ∈ HabitPublicListAPIView.queryset db ↔ h ∈ db ∧ h.is_published = true) := by
  constructor
  · unfold HabitListAPIView.get_queryset
    simp [List.mem_filter]
  · unfold HabitPublicListAPIView.queryset
    simp [List.mem_filter]

/-- C5: an unauthenticated request is rejected with 401 by the
permission gate on every endpoint except user-creation, token-obtain
and token-refresh, which let it through; an authenticated request
passes the gate everywhere. -/
theorem claim_C5 (e : Endpoint) :
    permissionGate e false =
      (if e = Endpoint.usersCreate ∨ e = Endpoint.tokenObtain ∨
          e = Endpoint.tokenRefresh then none else some 401) ∧
    permissionGate e true = none := by
  cases e <;> decide

/-- C6: for a boolean request field `is_pleasant_habit = b`, both the
create view and the update view select the useful-named serializer when
b is true and the pleasant-named serializer when b is false. -/
theorem claim_C6 (d : RequestData) (b : Bool)
    (hb : d.is_pleasant_habit = some (JsonValue.bool b)) :
    HabitCreateAPIView.get_serializer_class d =
      (if b then SerializerClass.HabitUsefulCreateUpdateSerializer
       else SerializerClass.HabitPleasantCreateUpdateSerializer) ∧
    HabitUpdateAPIView.get_serializer_class d =
      (if b then SerializerClass.HabitUsefulCreateUpdateSerializer
       else SerializerClass.HabitPleasantCreateUpdateSerializer) := by
  unfold HabitCreateAPIView.get_serializer_class
    HabitUpdateAPIView.get_serializer_class
  rw [hb]
  cases b <;> simp [optTruthy, JsonValue.truthy]

/-- Witness for C6: a body carrying `is_pleasant_habit = true` selects
the useful-named serializer on create and on update. -/
theorem claim_C6_witness :
    bodyBoolTrue.is_pleasant_habit = some (JsonValue.bool true) ∧
    (HabitCreateAPIView.get_serializer_class bodyBoolTrue =
      (if true then SerializerClass.HabitUsefulCreateUpdateSerializer
       else SerializerClass.HabitPleasantCreateUpdateSerializer) ∧
    HabitUpdateAPIView.get_serializer_class bodyBoolTrue =
      (if true then SerializerClass.HabitUsefulCreateUpdateSerializer
       else SerializerClass.HabitPleasantCreateUpdateSerializer)) :=
  ⟨rfl, claim_C6 bodyBoolTrue true rfl⟩

/-- C7 counterexample: the retrieve view's scope does not support the
filtering, search and ordering components — it declares none of them;
the claim that every one of the four scopes does is false on the code. -/
theorem claim_C7_counterexample :
    supportsFilterSearchOrder HabitRetrieveAPIView.filterConfig = false := by
  decide

/-- C7 amended: only the two list views declare the filter backends
with all fields filterable and searchable and ordering by id; the
retrieve, update and delete views keep the framework default of no
filtering components. -/
theorem claim_C7 :
    supportsFilterSearchOrder HabitListAPIView.filterConfig = true ∧
    supportsFilterSearchOrder HabitPublicListAPIView.filterConfig = true ∧
    HabitRetrieveAPIView.filterConfig = defaultFilterConfig ∧
    HabitUpdateAPIView.filterConfig = defaultFilterConfig ∧
    HabitDestroyAPIView.filterConfig = defaultFilterConfig := by
  decide

/-- C8: the user-resource routing table maps exactly the seven paths of
the spec to the expected views, and the three unauthenticated endpoints
of the gate are user-creation, token-obtain and token-refresh. -/
theorem claim_C8 :
    lookupPath ("create/") = some UserHandler.UserCreateAPIView ∧
    lookupPath ("") = some UserHandler.UserListAPIView ∧
    lookupPath ("<int:pk>/") = some UserHandler.UserRetrieveAPIView ∧
    lookupPath ("update/<int:pk>/") = some UserHandler.UserUpdateAPIView ∧
    lookupPath ("delete/<int:pk>/") = some UserHandler.UserDestroyAPIView ∧
    lookupPath ("token/") = some UserHandler.TokenObtainPairView ∧
    lookupPath ("token/refresh/") = some UserHandler.TokenRefreshView ∧
    urlpatterns.length = 7 ∧
    requiresAuth Endpoint.usersCreate = false ∧
    requiresAuth Endpoint.tokenObtain = false ∧
    requiresAuth Endpoint.tokenRefresh = false := by
  decide

/-- C9: serializer selection reads only the truthiness of the current
request body's `is_pleasant_habit` value: an absent key or a falsy
value selects the pleasant-named serializer, any truthy value selects
the useful-named one, the non-empty string value of the word false is
truthy, and the update view's selection coincides with the create
view's on every body (it never consults the stored habit). -/
theorem claim_C9 (d dA dF dT : RequestData) (v w : JsonValue)
    (hA : dA.is_pleasant_habit = none)
    (hF : dF.is_pleasant_habit = some v) (hvF : v.truthy = false)
    (hT : dT.is_pleasant_habit = some w) (hvT : w.truthy = true) :
    HabitUpdateAPIView.get_serializer_class dA =
      SerializerClass.HabitPleasantCreateUpdateSerializer ∧
    HabitUpdateAPIView.get_serializer_class dF =
      SerializerClass.HabitPleasantCreateUpdateSerializer ∧
    HabitUpdateAPIView.get_serializer_class dT =
      SerializerClass.HabitUsefulCreateUpdateSerializer ∧
    JsonValue.truthy (JsonValue.str ("false")) = true ∧
    HabitUpdateAPIView.get_serializer_class d =
      HabitCreateAPIView.get_serializer_class d := by
  refine ⟨?_, ?_, ?_, by decide, rfl⟩
  · unfold HabitUpdateAPIView.get_serializer_class
    rw [hA]
    rfl
  · unfold HabitUpdateAPIView.get_serializer_class
    rw [hF]
    simp [optTruthy, hvF]
  · unfold HabitUpdateAPIView.get_serializer_class
    rw [hT]
    simp [optTruthy, hvT]

/-- Witness for C9: the absent key and the false boolean select the
pleasant-named serializer, while the string value of the word false
selects the useful-named one. -/
theorem claim_C9_witness :
    bodyAbsent.is_pleasant_habit = none ∧
    bodyBoolFalse.is_pleasant_habit = some (JsonValue.bool false) ∧
    (JsonValue.bool false).truthy = false ∧
    bodyStrFalse.is_pleasant_habit = some (JsonValue.str ("false")) ∧
    (JsonValue.str ("false")).truthy = true ∧
    (HabitUpdateAPIView.get_serializer_class bodyAbsent =
      SerializerClass.HabitPleasantCreateUpdateSerializer ∧
    HabitUpdateAPIView.get_serializer_class bodyBoolFalse =
      SerializerClass.HabitPleasantCreateUpdateSerializer ∧
    HabitUpdateAPIView.get_serializer_class bodyStrFalse =
      SerializerClass.HabitUsefulCreateUpdateSerializer ∧
    JsonValue.truthy (JsonValue.str ("false")) = true ∧
    HabitUpdateAPIView.get_serializer_class bodyAbsent =
      HabitCreateAPIView.get_serializer_class bodyAbsent) :=
  ⟨rfl, rfl, rfl, rfl, by decide,
    claim_C9 bodyAbsent bodyAbsent bodyBoolFalse bodyStrFalse
      (JsonValue.bool false) (JsonValue.str ("false"))
      rfl rfl rfl rfl (by decide)⟩

/-- C10: the update, delete and list-mine scoping functions are
extensionally equal, so a habit is updatable by a user exactly when it
is deletable by that user exactly when it appears in that user's
list-mine queryset. -/
theorem claim_C10 (db : List Habit) (u : Nat) :
    HabitUpdateAPIView.get_queryset db u = HabitListAPIView.get_queryset db u ∧
    HabitDestroyAPIView.get_queryset db u = HabitListAPIView.get_queryset db u ∧
    ∀ h : Habit,
      (h ∈ HabitUpdateAPIView.get_queryset db u ↔
        h ∈ HabitListAPIView.get_queryset db u) ∧
      (h ∈ HabitDestroyAPIView.get_queryset db u ↔
        h ∈ HabitUpdateAPIView.get_queryset db u) :=
  ⟨rfl, rfl, fun _ => ⟨Iff.rfl, Iff.rfl⟩⟩

end SpaHabits
